import Mathlib

/-!
Verification of the core data-transformation layer of the Brasas Capitales
dashboard (`src/app.py`): field normalization, the econometric master series,
the break-even financial model, and the customer segmentation engine.

Conventions of the shallow embedding:
* Monetary amounts, ratios and percentages are modelled exactly over `ℚ`
  (the Python code works with IEEE floats; the specification's arithmetic
  identities are stated and checked in exact arithmetic).
* Calendar dates are modelled as day numbers in `ℤ`; `timedelta(days = i)`
  becomes subtraction of `i`.
* Python strings are modelled as Lean `String`s; the string primitives used
  by the code (`str.replace`, `str.strip`, `str.upper`, `str.split`,
  substring membership) are re-implemented over `List Char` so that every
  definition evaluates inside the kernel.  `str.upper` is modelled on the
  ASCII range (`Char.toUpper`), which covers every constant the code uses.
* Pandas tables become lists of records; `groupby` over a key becomes
  "deduplicated key list + filter", which reproduces pandas' aggregation
  and its ascending key order where relevant.
-/

namespace Brasas

/-! ### Character-list string primitives (models of the Python `str` methods) -/

/-- Fuel-driven scanner behind `quitar_todas`; the fuel is an upper bound on
the number of characters still to be consumed, so it never runs out when
called with `s.length`. -/
def quitar_aux (pat : List Char) : ℕ → List Char → List Char
  | 0, s => s
  | _ + 1, [] => []
  | fuel + 1, c :: rest =>
    if pat ≠ [] ∧ pat.isPrefixOf (c :: rest) then
      quitar_aux pat fuel ((c :: rest).drop pat.length)
    else
      c :: quitar_aux pat fuel rest

/-- Model of Python `str.replace(pat, "")` for a non-empty `pat`: scan left to
right and delete every (non-overlapping) occurrence of `pat`. -/
def quitar_todas (pat : List Char) (s : List Char) : List Char :=
  quitar_aux pat s.length s

/-- Model of Python `str.strip()`: drop whitespace from both ends. -/
def recortar (s : List Char) : List Char :=
  ((s.dropWhile Char.isWhitespace).reverse.dropWhile Char.isWhitespace).reverse

/-- Model of Python `str.upper()` (ASCII case mapping). -/
def mayusculas (s : List Char) : List Char := s.map Char.toUpper

/-- Model of Python `sub in s` (substring membership). -/
def contiene (s sub : List Char) : Bool :=
  match s with
  | [] => sub.isEmpty
  | _ :: rest => sub.isPrefixOf s || contiene rest sub

/-- Model of Python `s.split('(')[0]`: everything before the first `(`. -/
def antes_paren : List Char → List Char
  | [] => []
  | '(' :: _ => []
  | c :: r => c :: antes_paren r

/-! ### Field Normalizer: numeric parsing (`clean_currency`, app.py lines 170-176) -/

/-- A spreadsheet cell as seen by `clean_currency`: either already numeric or
a raw string. -/
inductive CellValue where
  | num (q : ℚ)
  | str (s : String)
  deriving DecidableEq, Repr

/-- Split a character list at the first `.`, returning the part before it and,
when a dot exists, the part after it. -/
def hasta_punto : List Char → List Char × Option (List Char)
  | [] => ([], none)
  | '.' :: r => ([], some r)
  | c :: r =>
    let p := hasta_punto r
    (c :: p.1, p.2)

/-- Numeric value of a digit string. -/
def valor_digitos (l : List Char) : ℕ :=
  l.foldl (fun n c => 10 * n + (c.toNat - 48)) 0

/-- Syntactic stage of the model of Python `float(s)`: recognise an optional
sign followed by `d+`, `d+.d*` or `.d+`, and return
(negative?, integer part, fractional digits value, fractional digit count).
Everything here lives in ground decidable types. -/
def analiza_pyfloat (s : List Char) : Option (Bool × ℕ × ℕ × ℕ) :=
  let signed : Bool × List Char :=
    match s with
    | '+' :: t => (false, t)
    | '-' :: t => (true, t)
    | t => (false, t)
  let neg := signed.1
  let body := signed.2
  match hasta_punto body with
  | (ip, none) =>
    if ip ≠ [] ∧ ip.all Char.isDigit then
      some (neg, valor_digitos ip, 0, 0)
    else
      none
  | (ip, some fp) =>
    if (ip ≠ [] ∨ fp ≠ []) ∧ ip.all Char.isDigit ∧ fp.all Char.isDigit ∧
        fp.all (· ≠ '.') then
      some (neg, valor_digitos ip, valor_digitos fp, fp.length)
    else
      none

/-- Model of Python `float(s)` on the plain decimal literals produced by the
cleaning pipeline: an optional sign, then `d+`, `d+.d*` or `.d+`.  Anything
else (the forms `float` also accepts — exponents, `inf`, `nan`, underscores —
never survives the currency cleaning) fails with `none`. -/
def parse_pyfloat (s : List Char) : Option ℚ :=
  (analiza_pyfloat s).map
    (fun r => (if r.1 then (-1 : ℚ) else 1) * ((r.2.1 : ℚ) + (r.2.2.1 : ℚ) / 10 ^ r.2.2.2))

/-- The string scrubbing done by `clean_currency` before conversion:
`x.replace('S/', '').replace(',', '').replace('%', '').strip()`. -/
def limpiar_texto_moneda (s : String) : List Char :=
  recortar (quitar_todas ['%'] (quitar_todas [','] (quitar_todas ['S', '/'] s.data)))

/-- app.py lines 170-176: `clean_currency` — non-strings pass through, strings
are scrubbed and converted, and a failed conversion yields `0.0`. -/
def clean_currency (x : CellValue) : CellValue :=
  match x with
  | .num q => .num q
  | .str s =>
    match parse_pyfloat (limpiar_texto_moneda s) with
    | some q => .num q
    | none => .num 0

/-! ### Field Normalizer: ratio sanity clamp (app.py lines 393-396 and 550-553) -/

/-- The ratio sanity clamp applied to `Ratio_Costo_Real`:
`if ratio_val > 1: ratio_val /= 100` then `if ratio_val == 0: ratio_val = 0.60`. -/
def ratio_val (raw : ℚ) : ℚ :=
  let r1 := if raw > 1 then raw / 100 else raw
  if r1 = 0 then 3 / 5 else r1

/-! ### Field Normalizer: date-batch parsing (app.py lines 155-167)

A date parser is an abstract `String → Option ℤ` (`none` models `NaT`,
`some d` a parsed day number).  The loader runs the day-first parser over the
whole column, switches to the `format='mixed'` parser when the failure share
`isna().mean()` exceeds `0.8`, and finally drops the rows whose chosen parse
failed (`dropna`). -/

/-- `True` when the mixed-format fallback is selected for a batch:
`DB[key]['Fecha_dt'].isna().mean() > 0.8` after the day-first attempt. -/
def usa_mixed (dayfirst : String → Option ℤ) (batch : List String) : Bool :=
  decide ((((batch.map dayfirst).countP (fun o => o.isNone) : ℕ) : ℚ) / (batch.length : ℚ) > 4 / 5)

/-- The date-cleaning step for one column batch: parse each cell with the
selected parser and keep only the rows whose date parsed (`dropna`). -/
def limpieza_fechas (dayfirst mixedp : String → Option ℤ) (batch : List String) :
    List (String × ℤ) :=
  let elegido := if usa_mixed dayfirst batch then mixedp else dayfirst
  batch.filterMap (fun s => (elegido s).map (fun d => (s, d)))

/-! ### Master Series Builder (`build_econometric_master`, app.py lines 247-300) -/

/-- One normalized sales row: `Fecha_dt`, `Monto`, `Cantidad`. -/
structure SaleRow where
  fecha : ℤ
  monto : ℚ
  cantidad : ℚ
  deriving DecidableEq, Repr

/-- One weekly advertising row: week-ending `Fecha_dt`/`Fecha_Cierre` and the
cleaned `Gasto_Ads` total. -/
structure AdsRow where
  fecha : ℤ
  gasto : ℚ
  deriving DecidableEq, Repr

/-- One context (`Data_Diaria`) row: its `Fecha_dt` plus the contextual flag
payload (the `Lluvia_Intensa`/`Competencia_Agresiva`/`Dia_Huelga`/
`Stockout_Cierre` cells, whose content the builder merely copies). -/
structure CtxRow where
  fecha : ℤ
  flags : String
  deriving DecidableEq, Repr

/-- One record of the master table. -/
structure MasterRow where
  fecha : ℤ
  monto : ℚ
  cantidad : ℚ
  precio_promedio : ℚ
  gasto_ads : ℚ
  ctx : Option String
  deriving DecidableEq, Repr

/-- `range(7)` of the redistribution loop. -/
def dias_semana : List ℕ := [0, 1, 2, 3, 4, 5, 6]

/-- `ads_daily_list`: each weekly row `r` appends the seven entries
`(r.fecha - i, r.gasto / 7)` for `i = 0, …, 6`. -/
def ads_daily_list : List AdsRow → List (ℤ × ℚ)
  | [] => []
  | r :: rest =>
    dias_semana.map (fun i => (r.fecha - (i : ℕ), r.gasto / 7)) ++ ads_daily_list rest

/-- The per-day advertising total after the `groupby('Fecha_dt').sum()` of
`ads_daily_list`, as looked up by the left merge (a day with no entry gets the
`fillna(0)` value, i.e. the empty sum). -/
def gasto_ads_on (ads : List AdsRow) (d : ℤ) : ℚ :=
  (((ads_daily_list ads).filter (fun p => p.1 == d)).map Prod.snd).sum

/-- The ascending list of distinct sales dates: the keys of
`df_v.groupby('Fecha_dt')`, which is also the date column of the final
(sorted) master table. -/
def fechas_ventas (ventas : List SaleRow) : List ℤ :=
  ((ventas.map SaleRow.fecha).dedup).insertionSort (· ≤ ·)

/-- The master record(s) produced for one sales date `d`: the grouped revenue
and unit sums, the derived average price, the merged advertising spend, and
the left-joined context payload (one output row per matching context row;
a date with no context row keeps a single row with no flags). -/
def filas_de_fecha (ventas : List SaleRow) (ctx : List CtxRow) (ads : List AdsRow)
    (d : ℤ) : List MasterRow :=
  let del_dia := ventas.filter (fun v => v.fecha == d)
  let monto := (del_dia.map SaleRow.monto).sum
  let cantidad := (del_dia.map SaleRow.cantidad).sum
  let precio := if cantidad > 0 then monto / cantidad else 0
  let gasto := gasto_ads_on ads d
  match ctx.filter (fun c => c.fecha == d) with
  | [] => [⟨d, monto, cantidad, precio, gasto, none⟩]
  | ms => ms.map (fun c => ⟨d, monto, cantidad, precio, gasto, some c.flags⟩)

/-- Concatenation of the per-date records over a date list. -/
def concat_filas (ventas : List SaleRow) (ctx : List CtxRow) (ads : List AdsRow) :
    List ℤ → List MasterRow
  | [] => []
  | d :: ds => filas_de_fecha ventas ctx ads d ++ concat_filas ventas ctx ads ds

/-- app.py lines 247-300, `build_econometric_master`: an empty sales table
returns an empty table; otherwise group sales by day, derive the average
price, left-merge the redistributed advertising spend (missing → 0), and
left-merge the context flags; the result is sorted ascending by date. -/
def build_econometric_master (ventas : List SaleRow) (ctx : List CtxRow)
    (ads : List AdsRow) : List MasterRow :=
  if ventas.isEmpty then []
  else concat_filas ventas ctx ads (fechas_ventas ventas)

/-! ### Financial Health Calculator (app.py lines 349-399 and 517-563) -/

/-- The `PARAM_COSTOS_FIJOS` table as the fixed-cost logic sees it: whether the
`Monto_Mensual` column exists, and the cleaned column values (one per row, so
the table is empty exactly when `montos = []`). -/
structure FijosTable where
  hasMontoMensual : Bool
  montos : List ℚ
  deriving DecidableEq, Repr

/-- app.py lines 535-539: the dynamic fixed-cost base, with the `3600.00`
safety fallback. -/
def costo_fijo_mensual_real (t : FijosTable) : ℚ :=
  if ¬ t.montos.isEmpty ∧ t.hasMontoMensual then t.montos.sum else 3600

/-- app.py lines 550-563 (tab 3, Finanzas & Runway): from the latest treasury
row's raw `Ratio_Costo_Real` compute the contribution margin and the monthly
and daily break-even targets, both reported as `0` when the margin is at or
below the `0.05` floor. -/
def pe_finanzas (t : FijosTable) (raw_ratio : ℚ) : ℚ × ℚ :=
  let margen_contrib := 1 - ratio_val raw_ratio
  if margen_contrib > 1 / 20 then
    (costo_fijo_mensual_real t / margen_contrib,
     costo_fijo_mensual_real t / margen_contrib / 30)
  else
    (0, 0)

/-- app.py lines 386-399 (tab 1, Corporate Overview): `pe_diario` stays `0.0`
when the treasury table is empty, and otherwise is the burn rate divided by
the contribution margin, with the `9999` sentinel when the margin is not
positive.  The argument is the latest treasury row's
(`Burn_Rate_Diario`, raw `Ratio_Costo_Real`) pair, `none` when the table is
empty. -/
def pe_diario_overview (sob : Option (ℚ × ℚ)) : ℚ :=
  match sob with
  | none => 0
  | some (burn, raw_ratio) =>
    let margen_contrib := 1 - ratio_val raw_ratio
    if margen_contrib > 0 then burn / margen_contrib else 9999

/-! ### Customer Segmentation Engine (app.py lines 815-954) -/

/-- Mean of a pandas numeric column (`sum / count`; only ever applied to
non-empty columns by the code). -/
def media (l : List ℚ) : ℚ := l.sum / l.length

/-- The sales table as `ticket_promedio_global` sees it: whether `ID_Ticket`
exists, and the (`ID_Ticket`, `Monto`) pairs. -/
structure VentasTable where
  hasIDTicket : Bool
  rows : List (String × ℚ)
  deriving DecidableEq, Repr

/-- `groupby('ID_Ticket')['Monto'].sum()`: one summed amount per distinct
ticket id. -/
def sumas_por_ticket (rows : List (String × ℚ)) : List ℚ :=
  ((rows.map Prod.fst).dedup).map
    (fun k => ((rows.filter (fun r => r.1 == k)).map Prod.snd).sum)

/-- app.py lines 821-831: the reference average ticket — `20.0` when the sales
table is empty, otherwise the mean ticket (per `ID_Ticket` when that column
exists, else the plain mean of `Monto`). -/
def ticket_promedio_global (v : VentasTable) : ℚ :=
  if v.rows.isEmpty then 20
  else if v.hasIDTicket then media (sumas_por_ticket v.rows)
  else media (v.rows.map Prod.snd)

/-- app.py line 869: `umbral_vip = ticket_promedio_global * 4`. -/
def umbral_vip (v : VentasTable) : ℚ := ticket_promedio_global v * 4

/-- app.py line 870: `umbral_recurrente = ticket_promedio_global * 1.5`. -/
def umbral_recurrente (v : VentasTable) : ℚ := ticket_promedio_global v * (3 / 2)

/-- app.py lines 848-854, `limpiar_nombre` applied to a string: uppercase,
trim, then for each entry of the fixed prefix list delete every occurrence
(Python `str.replace`) and trim again; a result of length ≤ 2 collapses to
the anonymous placeholder. -/
def nombre_normalizado (s : String) : List Char :=
  let prefijos : List (List Char) :=
    ["PLIN - ", "YAPE - ", "TRANSFERENCIA - ", "IZIPAY - ", "INTERBANK - ",
     "BCP - ", "PLIN", "YAPE"].map String.data
  prefijos.foldl (fun acc p => recortar (quitar_todas p acc)) (recortar (mayusculas s.data))

/-- app.py lines 848-854, `limpiar_nombre`: non-strings give `"DESCONOCIDO"`,
strings are normalized, and an unusable short result becomes `"ANÓNIMO"`. -/
def limpiar_nombre (x : CellValue) : String :=
  match x with
  | .num _ => "DESCONOCIDO"
  | .str s =>
    if 2 < (nombre_normalizado s).length then ⟨nombre_normalizado s⟩ else "ANÓNIMO"

/-- One cleaned Yape payment row: raw `Origen`, cleaned `Monto`, parsed
`Fecha_dt`. -/
structure YapeRow where
  origen : String
  monto : ℚ
  fecha : ℤ
  deriving DecidableEq, Repr

/-- `df_ingresos['Cliente_Limpio']`: the identity key of a payment row. -/
def clave (r : YapeRow) : String := limpiar_nombre (.str r.origen)

/-- One aggregated customer profile (a row of `df_clientes`). -/
structure Cliente where
  nombre : String
  total_historico : ℚ
  visitas_totales : ℕ
  ultima_visita : ℤ
  ticket_maximo : ℚ
  deriving DecidableEq, Repr

/-- `max` of a non-empty pandas group (`0` never arises in the code because
groups are non-empty). -/
def maximo_grupo (l : List ℚ) : ℚ :=
  match l with
  | [] => 0
  | x :: t => t.foldl max x

/-- `max` over the group's dates. -/
def maximo_fecha (l : List ℤ) : ℤ :=
  match l with
  | [] => 0
  | x :: t => t.foldl max x

/-- app.py lines 860-865: `df_clientes = df_ingresos.groupby('Cliente_Limpio')`
aggregating lifetime total, visit count, latest date and peak ticket — one
profile per distinct identity key. -/
def df_clientes (rows : List YapeRow) : List Cliente :=
  ((rows.map clave).dedup).map (fun k =>
    let g := rows.filter (fun r => clave r == k)
    { nombre := k
      total_historico := (g.map YapeRow.monto).sum
      visitas_totales := g.length
      ultima_visita := maximo_fecha (g.map YapeRow.fecha)
      ticket_maximo := maximo_grupo (g.map YapeRow.monto) })

/-- The first-match classification inside `segmentar_cliente`
(app.py lines 879-882). -/
def segmentar_base (uv ur total tk_max : ℚ) (visitas : ℕ) : String :=
  if tk_max ≥ uv ∧ visitas = 1 then "🐋 BALLENA (1 Visita)"
  else if total ≥ uv then "💎 VIP (Socio)"
  else if total ≥ ur then "🔥 RECURRENTE"
  else "🌱 CASUAL"

/-- The dormancy overlay (app.py lines 884-886): after 45 days of absence a
casual label becomes lost, any other label is rewritten to
`"💤 DORMIDO (<label before its parenthesis, stripped>)"`. -/
def overlay_dormido (dias_off : ℤ) (estado : String) : String :=
  if dias_off > 45 then
    if contiene estado.data "CASUAL".data then "💤 PERDIDO"
    else "💤 DORMIDO (" ++ (⟨recortar (antes_paren estado.data)⟩ : String) ++ ")"
  else estado

/-- app.py lines 872-887, `segmentar_cliente` on one profile row, with the
thresholds it reads from the enclosing scope passed as arguments. -/
def segmentar_cliente (uv ur : ℚ) (total : ℚ) (visitas : ℕ) (dias_off : ℤ)
    (tk_max : ℚ) : String :=
  overlay_dormido dias_off (segmentar_base uv ur total tk_max visitas)

/-- The segment label as §4.5 of the specification words it: thresholds
`4×`/`1.5×` the reference ticket, the fixed rule order
whale → VIP → recurring → casual, and the dormancy rewrite that preserves the
original category. -/
def segmento_spec (ref total : ℚ) (visitas : ℕ) (dias_off : ℤ) (tk_max : ℚ) : String :=
  let base :=
    if tk_max ≥ ref * 4 ∧ visitas = 1 then "🐋 BALLENA (1 Visita)"
    else if total ≥ ref * 4 then "💎 VIP (Socio)"
    else if total ≥ ref * (3 / 2) then "🔥 RECURRENTE"
    else "🌱 CASUAL"
  if dias_off > 45 then
    if base = "🌱 CASUAL" then "💤 PERDIDO"
    else if base = "🐋 BALLENA (1 Visita)" then "💤 DORMIDO (🐋 BALLENA)"
    else if base = "💎 VIP (Socio)" then "💤 DORMIDO (💎 VIP)"
    else "💤 DORMIDO (🔥 RECURRENTE)"
  else base

/-! ### Specification-shaped definitions and example data -/

/-- The advertising attribution as §4.3 of the specification words it: every
weekly row whose 7-day window (its week-ending date and the six days before
it) contains `d` contributes `spend / 7`, contributions of overlapping weekly
rows are summed, and a day matching no weekly row receives the empty sum `0`. -/
def gasto_ads_spec (ads : List AdsRow) (d : ℤ) : ℚ :=
  (ads.map (fun a => if a.fecha - 6 ≤ d ∧ d ≤ a.fecha then a.gasto / 7 else 0)).sum

/-- Example day-first parser for the batch-selection scenarios of §8: it
accepts exactly the local-convention string used in the example batches. -/
def df_ejemplo : String → Option ℤ := fun s => if s = "02/01/2024" then some 0 else none

/-- A batch of 10 date strings of which 9 parse day-first (failure share 10%). -/
def lote_9_buenas : List String :=
  ["02/01/2024", "02/01/2024", "02/01/2024", "02/01/2024", "02/01/2024",
   "02/01/2024", "02/01/2024", "02/01/2024", "02/01/2024", "2024?01?02"]

/-- A batch of 10 date strings of which 9 fail day-first (failure share 90%). -/
def lote_9_malas : List String :=
  ["02/01/2024", "2024?01?02", "2024?01?02", "2024?01?02", "2024?01?02",
   "2024?01?02", "2024?01?02", "2024?01?02", "2024?01?02", "2024?01?02"]

/-! ### Helper lemmas -/

lemma suma_ventana (f d : ℤ) (c : ℚ) :
    ((dias_semana.map (fun i => (f - (i : ℕ), c))).map
        (fun p => if p.1 = d then p.2 else 0)).sum
      = if f - 6 ≤ d ∧ d ≤ f then c else 0 := by
  simp only [dias_semana, List.map_cons, List.map_nil, List.sum_cons, List.sum_nil]
  push_cast
  split_ifs <;> first | (exfalso; omega) | ring1

lemma sum_filtrado (l : List (ℤ × ℚ)) (d : ℤ) :
    ((l.filter (fun p => p.1 == d)).map Prod.snd).sum
      = (l.map (fun p => if p.1 = d then p.2 else 0)).sum := by
  induction l with
  | nil => simp
  | cons p t ih =>
    by_cases h : p.1 = d
    · simp [List.filter_cons, h, ih]
    · simp [List.filter_cons, h, ih]

/-- The per-day attribution computed by the code coincides with the
specification-shaped sum over 7-day windows. -/
lemma gasto_ads_on_eq (ads : List AdsRow) (d : ℤ) :
    gasto_ads_on ads d = gasto_ads_spec ads d := by
  induction ads with
  | nil => simp [gasto_ads_on, gasto_ads_spec, ads_daily_list]
  | cons a t ih =>
    simp only [gasto_ads_on, gasto_ads_spec, ads_daily_list, List.filter_append,
      List.map_append, List.sum_append, List.map_cons, List.sum_cons] at *
    rw [sum_filtrado, suma_ventana, ih]

lemma mem_filas_de_fecha {ventas : List SaleRow} {ctx : List CtxRow}
    {ads : List AdsRow} {d : ℤ} {r : MasterRow}
    (hr : r ∈ filas_de_fecha ventas ctx ads d) :
    r.fecha = d ∧ r.gasto_ads = gasto_ads_on ads d := by
  simp only [filas_de_fecha] at hr
  rcases hfil : List.filter (fun c => c.fecha == d) ctx with _ | ⟨c0, ms⟩ <;>
    rw [hfil] at hr
  · simp only [List.mem_singleton] at hr
    subst hr
    exact ⟨rfl, rfl⟩
  · simp only [List.mem_map] at hr
    obtain ⟨c, _, rfl⟩ := hr
    exact ⟨rfl, rfl⟩

lemma mem_concat_filas {ventas : List SaleRow} {ctx : List CtxRow}
    {ads : List AdsRow} {ds : List ℤ} {r : MasterRow}
    (hr : r ∈ concat_filas ventas ctx ads ds) :
    ∃ d ∈ ds, r ∈ filas_de_fecha ventas ctx ads d := by
  induction ds with
  | nil => simp [concat_filas] at hr
  | cons d t ih =>
    simp only [concat_filas, List.mem_append] at hr
    rcases hr with hr | hr
    · exact ⟨d, List.mem_cons_self d t, hr⟩
    · obtain ⟨e, he, hre⟩ := ih hr
      exact ⟨e, List.mem_cons_of_mem d he, hre⟩

lemma filter_fecha_corto (ctx : List CtxRow) (d : ℤ)
    (h : (ctx.map CtxRow.fecha).Nodup) :
    (ctx.filter (fun c => c.fecha == d)).length ≤ 1 := by
  induction ctx with
  | nil => simp
  | cons c t ih =>
    simp only [List.map_cons, List.nodup_cons] at h
    by_cases hc : c.fecha = d
    · have hnil : t.filter (fun c => c.fecha == d) = [] := by
        rw [List.filter_eq_nil_iff]
        intro x hx
        simp only [beq_iff_eq]
        intro hxd
        exact h.1 (hc ▸ hxd ▸ List.mem_map_of_mem CtxRow.fecha hx)
      rw [List.filter_cons_of_pos (by simp [hc]), hnil]
      simp
    · rw [List.filter_cons_of_neg (by simp [hc])]
      exact ih h.2

lemma filas_map_fecha (ventas : List SaleRow) (ctx : List CtxRow)
    (ads : List AdsRow) (d : ℤ) (h : (ctx.map CtxRow.fecha).Nodup) :
    (filas_de_fecha ventas ctx ads d).map MasterRow.fecha = [d] := by
  have hlen := filter_fecha_corto ctx d h
  simp only [filas_de_fecha]
  rcases hfil : List.filter (fun c => c.fecha == d) ctx with _ | ⟨c0, ms⟩
  · rw [hfil]
    simp
  · rw [hfil] at hlen
    rw [hfil]
    have hms : ms = [] := by
      cases ms with
      | nil => rfl
      | cons a b => simp at hlen
    subst hms
    simp

lemma concat_map_fecha (ventas : List SaleRow) (ctx : List CtxRow)
    (ads : List AdsRow) (ds : List ℤ) (h : (ctx.map CtxRow.fecha).Nodup) :
    (concat_filas ventas ctx ads ds).map MasterRow.fecha = ds := by
  induction ds with
  | nil => simp [concat_filas]
  | cons d t ih =>
    simp only [concat_filas, List.map_append, ih]
    rw [filas_map_fecha ventas ctx ads d h]
    rfl

lemma build_map_fecha (ventas : List SaleRow) (ctx : List CtxRow)
    (ads : List AdsRow) (h : (ctx.map CtxRow.fecha).Nodup) :
    (build_econometric_master ventas ctx ads).map MasterRow.fecha
      = fechas_ventas ventas := by
  by_cases hv : ventas.isEmpty
  · have : ventas = [] := List.isEmpty_iff.mp hv
    subst this
    simp [build_econometric_master, fechas_ventas, List.insertionSort]
  · simp only [build_econometric_master, hv, Bool.false_eq_true, if_false]
    exact concat_map_fecha ventas ctx ads (fechas_ventas ventas) h

lemma fechas_ventas_nodup (ventas : List SaleRow) : (fechas_ventas ventas).Nodup :=
  (List.perm_insertionSort _ _).nodup_iff.mpr (List.nodup_dedup _)

lemma fechas_ventas_sorted (ventas : List SaleRow) :
    List.Sorted (· ≤ ·) (fechas_ventas ventas) :=
  List.sorted_insertionSort _ _

lemma mem_fechas_ventas (ventas : List SaleRow) (d : ℤ) :
    d ∈ fechas_ventas ventas ↔ ∃ v ∈ ventas, v.fecha = d := by
  rw [fechas_ventas, (List.perm_insertionSort _ _).mem_iff, List.mem_dedup,
    List.mem_map]

/-- The `isna().mean() > 0.8` test in rational arithmetic is the integer
comparison `4·n < 5·failures` (for the empty batch both sides are false,
since `0 / 0 = 0` in `ℚ`). -/
lemma usa_mixed_iff (df : String → Option ℤ) (batch : List String) :
    usa_mixed df batch = true
      ↔ 4 * batch.length < 5 * (batch.map df).countP (fun o => o.isNone) := by
  rw [usa_mixed, decide_eq_true_iff]
  rcases batch with _ | ⟨s, t⟩
  · norm_num
  · have hnpos : (0 : ℚ) < ((s :: t).length : ℚ) := by
      rw [Nat.cast_pos]
      simp
    rw [gt_iff_lt, div_lt_div_iff₀ (by norm_num) hnpos]
    constructor
    · intro hlt
      have hq : (4 : ℚ) * ((s :: t).length : ℚ)
          < 5 * (((s :: t).map df).countP (fun o => o.isNone) : ℚ) := by
        push_cast at hlt ⊢
        linarith
      exact_mod_cast hq
    · intro hlt
      have hq : (4 : ℚ) * ((s :: t).length : ℚ)
          < 5 * (((s :: t).map df).countP (fun o => o.isNone) : ℚ) := by
        exact_mod_cast hlt
      push_cast at hq ⊢
      linarith

lemma overlay_ballena (dias : ℤ) :
    overlay_dormido dias "🐋 BALLENA (1 Visita)"
      = if dias > 45 then "💤 DORMIDO (🐋 BALLENA)" else "🐋 BALLENA (1 Visita)" := by
  by_cases h : dias > 45
  · rw [if_pos h]
    simp only [overlay_dormido, if_pos h]
    decide
  · rw [if_neg h]
    simp only [overlay_dormido, if_neg h]

lemma overlay_vip (dias : ℤ) :
    overlay_dormido dias "💎 VIP (Socio)"
      = if dias > 45 then "💤 DORMIDO (💎 VIP)" else "💎 VIP (Socio)" := by
  by_cases h : dias > 45
  · rw [if_pos h]
    simp only [overlay_dormido, if_pos h]
    decide
  · rw [if_neg h]
    simp only [overlay_dormido, if_neg h]

lemma overlay_recurrente (dias : ℤ) :
    overlay_dormido dias "🔥 RECURRENTE"
      = if dias > 45 then "💤 DORMIDO (🔥 RECURRENTE)" else "🔥 RECURRENTE" := by
  by_cases h : dias > 45
  · rw [if_pos h]
    simp only [overlay_dormido, if_pos h]
    decide
  · rw [if_neg h]
    simp only [overlay_dormido, if_neg h]

lemma overlay_casual (dias : ℤ) :
    overlay_dormido dias "🌱 CASUAL"
      = if dias > 45 then "💤 PERDIDO" else "🌱 CASUAL" := by
  by_cases h : dias > 45
  · rw [if_pos h]
    simp only [overlay_dormido, if_pos h]
    decide
  · rw [if_neg h]
    simp only [overlay_dormido, if_neg h]

lemma clientes_map_nombre (rows : List YapeRow) :
    (df_clientes rows).map Cliente.nombre = (rows.map clave).dedup := by
  unfold df_clientes
  rw [List.map_map]
  exact List.map_id _

lemma cuenta_unica {l : List String} {k : String} (hnd : l.Nodup) (hk : k ∈ l) :
    l.countP (fun x => x == k) = 1 := by
  induction l with
  | nil => cases hk
  | cons a t ih =>
    simp only [List.nodup_cons] at hnd
    rcases List.mem_cons.mp hk with rfl | hkt
    · rw [List.countP_cons_of_pos _ _ (by simp)]
      have : t.countP (fun x => x == k) = 0 := by
        rw [List.countP_eq_zero]
        intro x hx
        simp only [beq_iff_eq]
        intro hxk
        exact hnd.1 (hxk ▸ hx)
      omega
    · rw [List.countP_cons_of_neg _ _ (by simp; rintro rfl; exact hnd.1 hkt)]
      exact ih hnd.2 hkt

/-! ### Claim theorems -/

/-- Claim C1: the fixed-cost base is the sum of the fixed-cost table's
`Monto_Mensual` column, with the documented `3600.00` fallback when the table
is empty or lacks that column; whenever the contribution margin exceeds
`0.05` the break-even monthly revenue is fixed-cost base / margin with the
daily figure monthly / 30, and a margin at or below `0.05` reports both as
`0`; base `3600` with margin `0.4` gives daily break-even `300`, and margin
`0.03` gives `0`. -/
theorem C1_punto_equilibrio :
    (∀ t : FijosTable, costo_fijo_mensual_real t
        = if t.montos.isEmpty ∨ t.hasMontoMensual = false then 3600 else t.montos.sum)
  ∧ (∀ (t : FijosTable) (raw : ℚ), (pe_finanzas t raw).1
        = if 1 - ratio_val raw > 1 / 20
          then costo_fijo_mensual_real t / (1 - ratio_val raw) else 0)
  ∧ (∀ (t : FijosTable) (raw : ℚ), (pe_finanzas t raw).2 = (pe_finanzas t raw).1 / 30)
  ∧ pe_finanzas ⟨true, []⟩ (3 / 5) = (9000, 300)
  ∧ pe_finanzas ⟨true, []⟩ (97 / 100) = (0, 0) := by
  refine ⟨?_, ?_, ?_, ?_, ?_⟩
  · intro t
    unfold costo_fijo_mensual_real
    by_cases h1 : t.montos.isEmpty <;> by_cases h2 : t.hasMontoMensual <;> simp [h1, h2]
  · intro t raw
    simp only [pe_finanzas]
    split_ifs <;> rfl
  · intro t raw
    simp only [pe_finanzas]
    split_ifs <;> simp
  · norm_num [pe_finanzas, ratio_val, costo_fijo_mensual_real, Prod.ext_iff]
  · norm_num [pe_finanzas, ratio_val, costo_fijo_mensual_real, Prod.ext_iff]

/-- Claim C2: every weekly advertising row with total `S` contributes exactly
`S / 7` to each of the 7 calendar days of the week ending at its week-ending
date (the date itself and the six days before it); overlapping weekly rows
contribute independently and their per-day contributions are summed; and a
sales day matched by no weekly row gets advertising spend `0`, never a
missing value.  The first conjunct states that every master record's spend is
the specification-shaped window sum `gasto_ads_spec`; the second shows two
overlapping `700` entries both paying `100` into a shared day; the third
shows a sales day with no advertising data carrying `0`. -/
theorem C2_redistribucion_ads :
    (∀ (ventas : List SaleRow) (ctx : List CtxRow) (ads : List AdsRow),
        ((build_econometric_master ventas ctx ads).all
          (fun r => r.gasto_ads == gasto_ads_spec ads r.fecha)) = true)
  ∧ gasto_ads_on [⟨3, 700⟩, ⟨5, 700⟩] 0 = 200
  ∧ (build_econometric_master [⟨0, 100, 5⟩] [] []).map MasterRow.gasto_ads = [0] := by
  refine ⟨?_, ?_, ?_⟩
  · intro ventas ctx ads
    rw [List.all_eq_true]
    intro r hr
    rw [beq_iff_eq]
    by_cases hv : ventas.isEmpty
    · simp [build_econometric_master, hv] at hr
    · simp only [build_econometric_master, hv, Bool.false_eq_true, if_false] at hr
      obtain ⟨d, _, hrd⟩ := mem_concat_filas hr
      obtain ⟨hfe, hga⟩ := mem_filas_de_fecha hrd
      rw [hfe, hga, gasto_ads_on_eq]
  · rw [gasto_ads_on_eq]
    norm_num [gasto_ads_spec]
  · decide

/-- Claim C3 counterexample: with a sales row on day 0 and a context table
holding two rows for day 0, the left merge with the context table duplicates
the master record, so the master series does not contain exactly one record
per sales day and its dates are not unique. -/
theorem C3_contraejemplo :
    (build_econometric_master [⟨0, 100, 5⟩] [⟨0, "a"⟩, ⟨0, "b"⟩] []).map MasterRow.fecha
      = [0, 0]
  ∧ ¬ ((build_econometric_master [⟨0, 100, 5⟩] [⟨0, "a"⟩, ⟨0, "b"⟩] []).map
        MasterRow.fecha).Nodup := by
  constructor <;> decide

/-- Claim C3 (amended): provided the context table has at most one row per
date, the master series has exactly one record per calendar day with at least
one sales row — its dates are unique and are exactly the sales dates, days
with attributed ad spend but no sales are absent — records are ordered
ascending by date, and an empty sales table yields an empty sequence. -/
theorem C3_invariantes_master (ventas : List SaleRow) (ctx : List CtxRow)
    (ads : List AdsRow) (hctx : (ctx.map CtxRow.fecha).Nodup) :
    ((build_econometric_master ventas ctx ads).map MasterRow.fecha).Nodup
  ∧ List.Sorted (· ≤ ·)
      ((build_econometric_master ventas ctx ads).map MasterRow.fecha)
  ∧ (∀ d : ℤ, d ∈ (build_econometric_master ventas ctx ads).map MasterRow.fecha
        ↔ ∃ v ∈ ventas, v.fecha = d)
  ∧ (ventas = [] → build_econometric_master ventas ctx ads = []) := by
  have hmap := build_map_fecha ventas ctx ads hctx
  refine ⟨?_, ?_, ?_, ?_⟩
  · rw [hmap]
    exact fechas_ventas_nodup ventas
  · rw [hmap]
    exact fechas_ventas_sorted ventas
  · intro d
    rw [hmap]
    exact mem_fechas_ventas ventas d
  · intro h
    subst h
    rfl

/-- Witness for C3: a concrete duplicate-free context table satisfies the
hypothesis and the resulting master dates are unique. -/
theorem C3_testigo :
    (List.map CtxRow.fecha [⟨0, "a"⟩, ⟨1, "b"⟩]).Nodup
  ∧ ((build_econometric_master [⟨1, 100, 5⟩, ⟨0, 80, 4⟩] [⟨0, "a"⟩, ⟨1, "b"⟩]
        []).map MasterRow.fecha).Nodup :=
  ⟨by decide,
   (C3_invariantes_master [⟨1, 100, 5⟩, ⟨0, 80, 4⟩] [⟨0, "a"⟩, ⟨1, "b"⟩] []
      (by decide)).1⟩

/-- Claim C4: the segment label follows the fixed first-match order — peak
ticket ≥ 4× reference with exactly one visit gives the whale label, else
lifetime ≥ 4× reference gives VIP, else lifetime ≥ 1.5× reference gives
recurring, else casual — and more than 45 days of absence rewrites casual to
lost and any other label to dormant with the original category preserved.
The equivalence is stated against `segmento_spec`, the rule set as the
specification words it; the examples use reference ticket `20`: one `90`
transaction is a whale, lifetime `85` over 3 visits is VIP, and a
50-days-inactive VIP becomes dormant-VIP. -/
theorem C4_segmentacion :
    (∀ (ref total : ℚ) (visitas : ℕ) (dias : ℤ) (tk : ℚ),
        segmentar_cliente (ref * 4) (ref * (3 / 2)) total visitas dias tk
          = segmento_spec ref total visitas dias tk)
  ∧ segmentar_cliente (20 * 4) (20 * (3 / 2)) 90 1 0 90 = "🐋 BALLENA (1 Visita)"
  ∧ segmentar_cliente (20 * 4) (20 * (3 / 2)) 85 3 0 40 = "💎 VIP (Socio)"
  ∧ segmentar_cliente (20 * 4) (20 * (3 / 2)) 85 3 50 40 = "💤 DORMIDO (💎 VIP)" := by
  refine ⟨?_, ?_, ?_, ?_⟩
  · intro ref total visitas dias tk
    simp only [segmentar_cliente, segmento_spec, segmentar_base]
    by_cases h1 : tk ≥ ref * 4 ∧ visitas = 1
    · simp only [if_pos h1]
      rw [overlay_ballena]
      by_cases hd : dias > 45
      · simp only [if_pos hd]
        decide
      · simp only [if_neg hd]
    · simp only [if_neg h1]
      by_cases h2 : total ≥ ref * 4
      · simp only [if_pos h2]
        rw [overlay_vip]
        by_cases hd : dias > 45
        · simp only [if_pos hd]
          decide
        · simp only [if_neg hd]
      · simp only [if_neg h2]
        by_cases h3 : total ≥ ref * (3 / 2)
        · simp only [if_pos h3]
          rw [overlay_recurrente]
          by_cases hd : dias > 45
          · simp only [if_pos hd]
            decide
          · simp only [if_neg hd]
        · simp only [if_neg h3]
          rw [overlay_casual]
          by_cases hd : dias > 45
          · simp only [if_pos hd]
            decide
          · simp only [if_neg hd]
  · have hb : segmentar_base (20 * 4) (20 * (3 / 2)) 90 90 1 = "🐋 BALLENA (1 Visita)" := by
      norm_num [segmentar_base]
    simp only [segmentar_cliente, hb]
    decide
  · have hb : segmentar_base (20 * 4) (20 * (3 / 2)) 85 40 3 = "💎 VIP (Socio)" := by
      norm_num [segmentar_base]
    simp only [segmentar_cliente, hb]
    decide
  · have hb : segmentar_base (20 * 4) (20 * (3 / 2)) 85 40 3 = "💎 VIP (Socio)" := by
      norm_num [segmentar_base]
    simp only [segmentar_cliente, hb]
    decide

/-- Claim C5: the ratio sanity clamp divides a value greater than `1` by
`100` exactly once, leaves values in `(0, 1]` unchanged, and replaces an
exact `0` with the default floor `0.60`; input `60` yields `0.60`, input
`0.6` yields `0.6`, and input `0` yields `0.60`. -/
theorem C5_clamp_ratio :
    (∀ raw : ℚ, ratio_val raw
        = if raw > 1 then raw / 100 else if raw = 0 then 3 / 5 else raw)
  ∧ ratio_val 60 = 3 / 5
  ∧ ratio_val (3 / 5) = 3 / 5
  ∧ ratio_val 0 = 3 / 5 := by
  refine ⟨?_, by norm_num [ratio_val], by norm_num [ratio_val], by norm_num [ratio_val]⟩
  intro raw
  simp only [ratio_val]
  by_cases h : raw > 1
  · rw [if_pos h, if_pos h,
      if_neg (div_ne_zero (by linarith) (by norm_num : (100 : ℚ) ≠ 0))]
  · rw [if_neg h, if_neg h]

/-- Claim C6: the mixed-format fallback parser is selected if and only if
strictly more than 80% of the batch fails day-first parsing (`4·n < 5·f`); the
cleaned table is the batch filtered through the selected parser, every kept
row carries a genuinely parsed date, a row whose date fails the selected
parse is absent from the result (never defaulted); and on the example
batches: 9 parseable out of 10 keeps day-first, 9 failures out of 10 selects
the fallback. -/
theorem C6_seleccion_fechas :
    (∀ (df : String → Option ℤ) (batch : List String),
        usa_mixed df batch = true
          ↔ 4 * batch.length < 5 * (batch.map df).countP (fun o => o.isNone))
  ∧ (∀ (df mx : String → Option ℤ) (batch : List String),
        limpieza_fechas df mx batch
          = batch.filterMap (fun s =>
              ((if usa_mixed df batch then mx else df) s).map (fun d => (s, d))))
  ∧ (∀ (df mx : String → Option ℤ) (batch : List String),
        (limpieza_fechas df mx batch).all
          (fun p => (if usa_mixed df batch then mx else df) p.1 == some p.2) = true)
  ∧ (∀ (df mx : String → Option ℤ) (batch : List String),
        batch.all (fun s =>
          ((if usa_mixed df batch then mx else df) s).isSome
            || (limpieza_fechas df mx batch).all (fun p => p.1 != s)) = true)
  ∧ usa_mixed df_ejemplo lote_9_buenas = false
  ∧ usa_mixed df_ejemplo lote_9_malas = true := by
  refine ⟨usa_mixed_iff, fun df mx batch => rfl, ?_, ?_, ?_, ?_⟩
  · intro df mx batch
    rw [List.all_eq_true]
    intro p hp
    simp only [limpieza_fechas, List.mem_filterMap] at hp
    obtain ⟨s, _, hmap⟩ := hp
    rw [Option.map_eq_some'] at hmap
    obtain ⟨d, hd, hpd⟩ := hmap
    subst hpd
    simp [hd]
  · intro df mx batch
    rw [List.all_eq_true]
    intro s _
    by_cases he : ((if usa_mixed df batch then mx else df) s).isSome
    · simp [he]
    · rw [Bool.or_eq_true]
      right
      rw [List.all_eq_true]
      intro p hp
      simp only [limpieza_fechas, List.mem_filterMap] at hp
      obtain ⟨s', _, hmap⟩ := hp
      rw [Option.map_eq_some'] at hmap
      obtain ⟨d, hd, hpd⟩ := hmap
      subst hpd
      simp only [bne_iff_ne, ne_eq]
      intro hss
      subst hss
      rw [hd] at he
      simp at he
  · have h : ¬ (4 * lote_9_buenas.length
        < 5 * (lote_9_buenas.map df_ejemplo).countP (fun o => o.isNone)) := by decide
    cases hb : usa_mixed df_ejemplo lote_9_buenas
    · rfl
    · exact absurd ((usa_mixed_iff df_ejemplo lote_9_buenas).mp hb) h
  · exact (usa_mixed_iff df_ejemplo lote_9_malas).mpr (by decide)

/-- Claim C7: the currency/percentage parser passes already-numeric values
through unchanged; for strings it deletes the `S/` currency marker, the comma
thousands separators and the percent sign, trims whitespace, converts, and
returns `0.0` when conversion fails; `"S/ 1,234.50"` parses to `1234.50` and
`"45%"` to `45.0` (percent sign stripped, not divided by 100). -/
theorem C7_parseo_moneda :
    (∀ q : ℚ, clean_currency (.num q) = .num q)
  ∧ (∀ s : String, clean_currency (.str s)
      = .num ((parse_pyfloat (limpiar_texto_moneda s)).getD 0))
  ∧ clean_currency (.str "S/ 1,234.50") = .num (2469 / 2)
  ∧ clean_currency (.str "45%") = .num 45
  ∧ clean_currency (.str "no es un numero") = .num 0 := by
  refine ⟨fun q => rfl, ?_, ?_, ?_, ?_⟩
  · intro s
    simp only [clean_currency]
    cases parse_pyfloat (limpiar_texto_moneda s) <;> simp
  · have h : analiza_pyfloat (limpiar_texto_moneda "S/ 1,234.50")
        = some (false, 1234, 50, 2) := by decide
    simp only [clean_currency, parse_pyfloat, h, Option.map_some']
    norm_num
  · have h : analiza_pyfloat (limpiar_texto_moneda "45%") = some (false, 45, 0, 0) := by
      decide
    simp only [clean_currency, parse_pyfloat, h, Option.map_some']
    norm_num
  · have h : analiza_pyfloat (limpiar_texto_moneda "no es un numero") = none := by decide
    simp only [clean_currency, parse_pyfloat, h, Option.map_none']

/-- Claim C8 counterexample: a non-empty sales table whose only ticket amount
is `0` produces a reference average ticket of `0`, which is *not* replaced by
the `20.0` safety default, and the VIP and recurring thresholds are computed
from that zero reference. -/
theorem C8_contraejemplo :
    (VentasTable.mk true [("T1", 0)]).rows ≠ []
  ∧ ticket_promedio_global ⟨true, [("T1", 0)]⟩ = 0
  ∧ umbral_vip ⟨true, [("T1", 0)]⟩ = 0
  ∧ umbral_recurrente ⟨true, [("T1", 0)]⟩ = 0 := by
  refine ⟨by simp, ?_, ?_, ?_⟩ <;>
    norm_num [ticket_promedio_global, umbral_vip, umbral_recurrente, media,
      sumas_por_ticket, List.dedup]

/-- Claim C8 (amended): the `20.0` safety default for the reference average
ticket is applied only when the sales table is empty (in which case the VIP
and recurring thresholds are `80` and `30`); a non-empty sales table's mean
is used as computed, so a zero mean flows into zero thresholds unchanged. -/
theorem C8_default_ticket (v : VentasTable) (h : v.rows = []) :
    ticket_promedio_global v = 20 ∧ umbral_vip v = 80 ∧ umbral_recurrente v = 30 := by
  rcases v with ⟨b, rows⟩
  simp only at h
  subst h
  norm_num [ticket_promedio_global, umbral_vip, umbral_recurrente]

/-- Witness for C8: the empty sales table takes the default and the derived
thresholds. -/
theorem C8_testigo :
    (VentasTable.mk true []).rows = []
  ∧ ticket_promedio_global ⟨true, []⟩ = 20
  ∧ umbral_vip ⟨true, []⟩ = 80
  ∧ umbral_recurrente ⟨true, []⟩ = 30 :=
  ⟨rfl, (C8_default_ticket ⟨true, []⟩ rfl).1, (C8_default_ticket ⟨true, []⟩ rfl).2.1,
   (C8_default_ticket ⟨true, []⟩ rfl).2.2⟩

/-- Claim C9: the identity key is computed deterministically from the raw
payer name by uppercasing, trimming and deleting the fixed ordered
payment-provider prefix list, any result of length ≤ 2 collapsing to the
anonymous placeholder; the aggregated profile table has pairwise distinct
keys, every payment row belongs to exactly one profile (rows whose raw
strings normalize to the same key are merged), and each profile's lifetime
total and visit count aggregate exactly the rows carrying its key.  The
examples show a prefixed and an unprefixed spelling of the same name mapping
to one key, and a too-short residue collapsing to the placeholder. -/
theorem C9_identidad_y_fusion :
    (∀ s : String, limpiar_nombre (.str s)
        = if 2 < (nombre_normalizado s).length
          then (⟨nombre_normalizado s⟩ : String) else "ANÓNIMO")
  ∧ (∀ rows : List YapeRow, ((df_clientes rows).map Cliente.nombre).Nodup)
  ∧ (∀ rows : List YapeRow,
      rows.all (fun r =>
        (df_clientes rows).countP (fun c => c.nombre == clave r) == 1) = true)
  ∧ (∀ rows : List YapeRow,
      (df_clientes rows).all (fun c =>
        c.total_historico
            == ((rows.filter (fun r => clave r == c.nombre)).map YapeRow.monto).sum
          && c.visitas_totales == (rows.filter (fun r => clave r == c.nombre)).length)
        = true)
  ∧ clave ⟨"Juan Perez", 10, 0⟩ = clave ⟨"  yape - JUAN PEREZ ", 20, 1⟩
  ∧ limpiar_nombre (.str "PLIN - J") = "ANÓNIMO" := by
  refine ⟨fun s => rfl, ?_, ?_, ?_, by decide, by decide⟩
  · intro rows
    rw [clientes_map_nombre]
    exact List.nodup_dedup _
  · intro rows
    rw [List.all_eq_true]
    intro r hr
    rw [beq_iff_eq]
    unfold df_clientes
    rw [List.countP_map]
    have hmem : clave r ∈ (rows.map clave).dedup :=
      List.mem_dedup.mpr (List.mem_map_of_mem clave hr)
    exact cuenta_unica (List.nodup_dedup _) hmem
  · intro rows
    rw [List.all_eq_true]
    intro c hc
    unfold df_clientes at hc
    rw [List.mem_map] at hc
    obtain ⟨k, _, rfl⟩ := hc
    simp

/-- Claim C10: in the Corporate Overview tab, with a non-empty treasury table
the daily break-even target is the burn rate divided by the contribution
margin — not fixed-cost base / margin / 30 as in the Finanzas tab — with the
`9999` sentinel when the margin is not positive, and with an empty treasury
table it stays `0.0`.  The example conjuncts separate the two formulas on the
same ratio (burn `100`, ratio `0.6`, empty fixed-cost table): the overview
target is `250` while the Finanzas daily target is `300`. -/
theorem C10_pe_overview :
    pe_diario_overview none = 0
  ∧ (∀ burn raw : ℚ, pe_diario_overview (some (burn, raw))
      = if 1 - ratio_val raw > 0 then burn / (1 - ratio_val raw) else 9999)
  ∧ pe_diario_overview (some (100, 3 / 5)) = 250
  ∧ (pe_finanzas ⟨true, []⟩ (3 / 5)).2 = 300
  ∧ pe_diario_overview (some (100, 3 / 5)) ≠ (pe_finanzas ⟨true, []⟩ (3 / 5)).2
  ∧ pe_diario_overview (some (100, 150)) = 9999 := by
  have h3 : pe_diario_overview (some (100, 3 / 5)) = 250 := by
    norm_num [pe_diario_overview, ratio_val]
  have h4 : (pe_finanzas ⟨true, []⟩ (3 / 5)).2 = 300 := by
    norm_num [pe_finanzas, ratio_val, costo_fijo_mensual_real]
  refine ⟨rfl, fun burn raw => rfl, h3, h4, ?_, ?_⟩
  · rw [h3, h4]
    norm_num
  · norm_num [pe_diario_overview, ratio_val]

end Brasas
